import Mathlib

/-!
Shallow embedding of the per-Consumer forwarding engine of the mediasoup
worker (files `RTC/Consumer.cpp`, `RTC/SimpleConsumer.cpp`,
`handles/UdpSocket.cpp`).  Pure functions model each C++ method; the
observable side effects (listener callbacks, channel notifications, RTCP
additions) are returned explicitly in result records.  Machine integers are
modelled as `Nat` with explicit `% 2^16` where uint16 overflow matters.
-/

/-- The `packetEventTypes` flag record of `RTC::Consumer`
(fields set by `CONSUMER_ENABLE_PACKET_EVENT`, Consumer.cpp:300-320). -/
structure PacketEventTypes where
  rtp : Bool
  nack : Bool
  pli : Bool
  fir : Bool
deriving DecidableEq, Repr

/-- Modelled from the spec: the sequence-number remapper
(`RTC::SeqManager`, used as `rtpSeqManager` by `SimpleConsumer`) is not
among the provided sources.  Spec contract (§4.A): `Sync(base)` fixes the
remapper's internal offset so that the next `Input(inputSeq)` call
produces `base + 1`; subsequent inputs produce outputs that preserve the
relative gaps of the input stream, with wraparound at 2^16.  We model the
state as a current offset plus an optional pending sync base. -/
structure SeqManager where
  offset : Nat
  pendingSync : Option Nat
deriving DecidableEq, Repr

/-- Modelled from the spec: `Sync(base)` records the base; the offset is
fixed at the next `Input` call so that that call yields `base + 1`. -/
def SeqManager.Sync (base : Nat) (m : SeqManager) : SeqManager :=
  { m with pendingSync := some (base % 65536) }

/-- Modelled from the spec: `Input(inputSeq)` returns the remapped output
sequence number and the updated remapper state.  After a pending
`Sync(base)` the output is `base + 1` and the offset is fixed so that
later inputs preserve relative gaps modulo 2^16. -/
def SeqManager.Input (input : Nat) (m : SeqManager) : Nat × SeqManager :=
  match m.pendingSync with
  | some base =>
      let out := (base + 1) % 65536
      (out, { offset := (out + 65536 - input % 65536) % 65536, pendingSync := none })
  | none => ((input % 65536 + m.offset) % 65536, m)

/-- The RTP packet fields that `SimpleConsumer::SendRtpPacket` reads or
writes (`GetSsrc`/`SetSsrc`, `GetSequenceNumber`/`SetSequenceNumber`,
`GetPayloadType`, `IsKeyFrame`, `GetTimestamp`). -/
structure RtpPacket where
  ssrc : Nat
  seq : Nat
  payloadType : Nat
  isKeyFrame : Bool
  timestamp : Nat
deriving DecidableEq, Repr

/-- The Consumer state relevant to the modelled methods (flags from
`RTC::Consumer`, plus the SimpleConsumer-owned `keyFrameSupported`,
`rtpSeqManager` and the existence of `producerRtpStream`).
`outputSsrc` is `rtpParameters.encodings[0].ssrc`. -/
structure Consumer where
  transportConnected : Bool
  paused : Bool
  producerPaused : Bool
  producerClosed : Bool
  syncRequired : Bool
  keyFrameSupported : Bool
  hasProducerRtpStream : Bool
  supportedCodecPayloadTypes : List Nat
  outputSsrc : Nat
  rtpSeqManager : SeqManager
  packetEventTypes : PacketEventTypes
  maxRtcpInterval : Nat
  lastRtcpSentTime : Nat
deriving DecidableEq, Repr

/-- Modelled from the spec: `IsActive()` is declared in `Consumer.hpp` /
`SimpleConsumer.hpp`, which are not among the provided sources.  Spec §3:
`IsActive() ≡ transportConnected ∧ ¬paused ∧ ¬producerPaused ∧
¬producerClosed ∧ ∃ producerRtpStream`. -/
def Consumer.IsActive (c : Consumer) : Bool :=
  c.transportConnected && !c.paused && !c.producerPaused && !c.producerClosed
    && c.hasProducerRtpStream

/-- Result of a `SimpleConsumer::SendRtpPacket` call: final consumer
state, final packet fields, whether `listener->OnConsumerSendRtpPacket`
was invoked, whether `rtpStream->ReceivePacket` was called, and the
remapped sequence number used on the wire (when the packet was admitted). -/
structure SendResult where
  consumer : Consumer
  packet : RtpPacket
  emitted : Bool
  streamReceived : Bool
  newSeq : Option Nat
deriving DecidableEq, Repr

/-- A drop outcome: consumer and packet untouched, nothing reaches the
stream or the listener. -/
def SendResult.dropped (c : Consumer) (p : RtpPacket) : SendResult :=
  { consumer := c, packet := p, emitted := false, streamReceived := false, newSeq := none }

/-- `SimpleConsumer::SendRtpPacket` (SimpleConsumer.cpp:178-264).
`streamAccepts` models the boolean returned by
`this->rtpStream->ReceivePacket(packet)` (the `RtpStreamSend` class is
not among the sources, so its verdict is an input of the model). -/
def SimpleConsumer.SendRtpPacket (c : Consumer) (packet : RtpPacket)
    (streamAccepts : Bool) : SendResult :=
  if c.IsActive = false then SendResult.dropped c packet
  else if packet.payloadType ∉ c.supportedCodecPayloadTypes then SendResult.dropped c packet
  else if c.syncRequired && c.keyFrameSupported && !packet.isKeyFrame then
    SendResult.dropped c packet
  else
    -- Whether this is the first packet after re-sync.
    let isSyncPacket := c.syncRequired
    -- Sync sequence number if required: Sync(packet->GetSequenceNumber() - 1)
    -- with uint16 wraparound.
    let m0 := if isSyncPacket then
        SeqManager.Sync ((packet.seq % 65536 + 65535) % 65536) c.rtpSeqManager
      else c.rtpSeqManager
    let res := SeqManager.Input packet.seq m0
    -- Save original packet fields.
    let origSsrc := packet.ssrc
    let origSeq := packet.seq
    -- Rewrite packet.
    let rewritten := { packet with ssrc := c.outputSsrc, seq := res.1 }
    let c1 := { c with
      syncRequired := if isSyncPacket then false else c.syncRequired,
      rtpSeqManager := res.2 }
    -- Restore packet fields before returning.  In the source the two
    -- branches on `rtpStream->ReceivePacket` differ only in emission (the
    -- true branch invokes the listener and may emit the packet event, the
    -- false branch logs a warning); both then restore the fields.
    let restored := { rewritten with ssrc := origSsrc, seq := origSeq }
    { consumer := c1, packet := restored, emitted := streamAccepts,
      streamReceived := true, newSeq := some res.1 }

/-- Result of a `SimpleConsumer::GetRtcp` call: final consumer state and
whether a sender report and an SDES chunk were added to the compound
packet. -/
structure RtcpResult where
  consumer : Consumer
  addedSenderReport : Bool
  addedSdesChunk : Bool
deriving DecidableEq, Repr

/-- `SimpleConsumer::GetRtcp` (SimpleConsumer.cpp:266-289).  The interval
test `static_cast<float>((nowMs - lastRtcpSentTime) * 1.15) <
maxRtcpInterval` is modelled in exact arithmetic as
`(nowMs - lastRtcpSentTime) * 115 < maxRtcpInterval * 100`.  `hasReport`
models whether `rtpStream->GetRtcpSenderReport(nowMs)` returns non-null
(the `RtpStreamSend` class is not among the sources; per the spec it
returns null iff no packet has been sent since startup). -/
def SimpleConsumer.GetRtcp (c : Consumer) (hasReport : Bool) (nowMs : Nat) : RtcpResult :=
  if (nowMs - c.lastRtcpSentTime) * 115 < c.maxRtcpInterval * 100 then
    { consumer := c, addedSenderReport := false, addedSdesChunk := false }
  else if hasReport = false then
    { consumer := c, addedSenderReport := false, addedSdesChunk := false }
  else
    { consumer := { c with lastRtcpSentTime := nowMs },
      addedSenderReport := true, addedSdesChunk := true }

/-- A JSON value, as far as `CONSUMER_ENABLE_PACKET_EVENT` inspects it. -/
inductive JVal where
  | jstr (s : String)
  | jnum (n : Int)
  | jbool (b : Bool)
  | jarr (xs : List JVal)
  | jobj

/-- Whether a JSON value `is_string()`. -/
def JVal.isStringElem : JVal → Bool
  | .jstr _ => true
  | _ => false

/-- The strings among a list of JSON values. -/
def strElems : List JVal → List String
  | [] => []
  | .jstr s :: rest => s :: strElems rest
  | _ :: rest => strElems rest

/-- Whether the optional `types` field is present and `is_array()`. -/
def isTypesArray : Option JVal → Bool
  | some (.jarr _) => true
  | _ => false

/-- The elements of the `types` array (empty if absent or not an array). -/
def arrElems : Option JVal → List JVal
  | some (.jarr xs) => xs
  | _ => []

/-- One iteration of the `CONSUMER_ENABLE_PACKET_EVENT` loop body
(Consumer.cpp:310-317): set the flag matching the string, ignore unknown
strings. -/
def setFlag (pet : PacketEventTypes) (s : String) : PacketEventTypes :=
  if s = "rtp" then { pet with rtp := true }
  else if s = "nack" then { pet with nack := true }
  else if s = "pli" then { pet with pli := true }
  else if s = "fir" then { pet with fir := true }
  else pet

/-- The `CONSUMER_ENABLE_PACKET_EVENT` loop (Consumer.cpp:303-318):
walk the array, throwing (returning `none`) at the first element that is
not a string, otherwise accumulating flags into the local
`newPacketEventTypes`. -/
def parseTypes (acc : PacketEventTypes) : List JVal → Option PacketEventTypes
  | [] => some acc
  | .jstr s :: rest => parseTypes (setFlag acc s) rest
  | _ :: _ => none

/-- `Consumer::HandleRequest` for `CONSUMER_ENABLE_PACKET_EVENT`
(Consumer.cpp:292-325).  `typesField` is the (optional) `types` member of
the request data.  Returns whether the request was accepted and the final
consumer state; a thrown `MS_THROW_TYPE_ERROR` is a rejection that leaves
the consumer unchanged, since `this->packetEventTypes` is assigned only
after the loop completes. -/
def Consumer.enablePacketEvent (c : Consumer) (typesField : Option JVal) :
    Bool × Consumer :=
  match typesField with
  | some (.jarr xs) =>
      match parseTypes { rtp := false, nack := false, pli := false, fir := false } xs with
      | some pet => (true, { c with packetEventTypes := pet })
      | none => (false, c)
  | _ => (false, c)

/-- Result of a `CONSUMER_PAUSE` / `CONSUMER_RESUME` request: final
state, whether the request was accepted, and whether the virtual
`UserOnPaused` / `UserOnResumed` hooks were invoked. -/
structure RequestResult where
  consumer : Consumer
  accepted : Bool
  userOnPaused : Bool
  userOnResumed : Bool
deriving DecidableEq, Repr

/-- `Consumer::HandleRequest` for `CONSUMER_PAUSE` (Consumer.cpp:248-269). -/
def Consumer.handleConsumerPause (c : Consumer) : RequestResult :=
  if c.paused then
    { consumer := c, accepted := true, userOnPaused := false, userOnResumed := false }
  else
    let wasActive := c.IsActive
    { consumer := { c with paused := true }, accepted := true,
      userOnPaused := wasActive, userOnResumed := false }

/-- `Consumer::HandleRequest` for `CONSUMER_RESUME` (Consumer.cpp:271-290). -/
def Consumer.handleConsumerResume (c : Consumer) : RequestResult :=
  if c.paused = false then
    { consumer := c, accepted := true, userOnPaused := false, userOnResumed := false }
  else
    let c1 := { c with paused := false }
    { consumer := c1, accepted := true, userOnPaused := false,
      userOnResumed := c1.IsActive }

/-- Result of a producer-side event on the Consumer: final state, hook
invocations, emitted channel notifications (in order), and whether
`listener->OnConsumerProducerClosed` was signalled. -/
structure ProducerEventResult where
  consumer : Consumer
  userOnPaused : Bool
  userOnResumed : Bool
  notified : List String
  listenerProducerClosed : Bool
deriving DecidableEq, Repr

/-- `Consumer::ProducerPaused` (Consumer.cpp:356-373). -/
def Consumer.producerPausedEvent (c : Consumer) : ProducerEventResult :=
  if c.producerPaused then
    { consumer := c, userOnPaused := false, userOnResumed := false,
      notified := [], listenerProducerClosed := false }
  else
    let wasActive := c.IsActive
    { consumer := { c with producerPaused := true }, userOnPaused := wasActive,
      userOnResumed := false, notified := ["producerpause"],
      listenerProducerClosed := false }

/-- `Consumer::ProducerResumed` (Consumer.cpp:375-390). -/
def Consumer.producerResumedEvent (c : Consumer) : ProducerEventResult :=
  if c.producerPaused = false then
    { consumer := c, userOnPaused := false, userOnResumed := false,
      notified := [], listenerProducerClosed := false }
  else
    let c1 := { c with producerPaused := false }
    { consumer := c1, userOnPaused := false, userOnResumed := c1.IsActive,
      notified := ["producerresume"], listenerProducerClosed := false }

/-- `Consumer::ProducerClosed` (Consumer.cpp:394-405).  Note: unlike
`ProducerPaused` / `ProducerResumed`, this method has no early-return
guard; it unconditionally sets the flag, emits the notification and
signals the listener. -/
def Consumer.producerClosedEvent (c : Consumer) : ProducerEventResult :=
  { consumer := { c with producerClosed := true }, userOnPaused := false,
    userOnResumed := false, notified := ["producerclose"],
    listenerProducerClosed := true }

/-- Result of a `SimpleConsumer::ReceiveNack` call: whether the `nack`
packet event was emitted on the channel and whether the NACK was
forwarded to `rtpStream->ReceiveNack`. -/
structure NackResult where
  nackEventEmitted : Bool
  forwardedToStream : Bool
deriving DecidableEq, Repr

/-- `SimpleConsumer::ReceiveNack` (SimpleConsumer.cpp:306-317).
`EmitPacketEventNackType` (Consumer.cpp:462-477) reaches the notifier
only when `packetEventTypes.nack` is set. -/
def SimpleConsumer.ReceiveNack (c : Consumer) : NackResult :=
  if c.IsActive = false then
    { nackEventEmitted := false, forwardedToStream := false }
  else
    { nackEventEmitted := c.packetEventTypes.nack, forwardedToStream := true }

/-- `UV_EAGAIN` as returned by libuv on Linux. -/
def UV_EAGAIN : Int := -11

/-- The `UdpSocket` state touched by `Send`. -/
structure UdpSocketState where
  closed : Bool
  sentBytes : Nat
deriving DecidableEq, Repr

/-- Outcome of a `UdpSocket::Send` call: final socket state, the values
passed to the caller's callback during the call (in order), and whether
an asynchronous `uv_udp_send` request was enqueued (whose completion will
invoke the callback later). -/
structure SendOutcome where
  socket : UdpSocketState
  cbCalls : List Bool
  enqueuedAsync : Bool
deriving DecidableEq, Repr

/-- `UdpSocket::Send` (UdpSocket.cpp:123-232).  `len` is the datagram
length, `hasCb` whether a callback was supplied, `trySendRet` the return
value of `uv_udp_try_send` and `uvSendRet` the return value of
`uv_udp_send` (consulted only on the `UV_EAGAIN` path). -/
def UdpSocket.Send (s : UdpSocketState) (len : Nat) (hasCb : Bool)
    (trySendRet : Int) (uvSendRet : Int) : SendOutcome :=
  if s.closed then
    { socket := s, cbCalls := if hasCb then [false] else [], enqueuedAsync := false }
  else if len = 0 then
    { socket := s, cbCalls := if hasCb then [false] else [], enqueuedAsync := false }
  else if trySendRet = (len : Int) then
    -- Entire datagram was sent.
    { socket := { s with sentBytes := s.sentBytes + len },
      cbCalls := if hasCb then [true] else [], enqueuedAsync := false }
  else if 0 ≤ trySendRet then
    -- Datagram truncated: count only the bytes actually sent, report failure.
    { socket := { s with sentBytes := s.sentBytes + trySendRet.toNat },
      cbCalls := if hasCb then [false] else [], enqueuedAsync := false }
  else if trySendRet ≠ UV_EAGAIN then
    { socket := s, cbCalls := if hasCb then [false] else [], enqueuedAsync := false }
  else if uvSendRet ≠ 0 then
    { socket := s, cbCalls := if hasCb then [false] else [], enqueuedAsync := false }
  else
    { socket := { s with sentBytes := s.sentBytes + len },
      cbCalls := [], enqueuedAsync := true }

/-- A Consumer in the fully active state, as in spec scenario S1. -/
def activeConsumer : Consumer :=
  { transportConnected := true, paused := false, producerPaused := false,
    producerClosed := false, syncRequired := false, keyFrameSupported := true,
    hasProducerRtpStream := true, supportedCodecPayloadTypes := [100],
    outputSsrc := 1111, rtpSeqManager := { offset := 0, pendingSync := none },
    packetEventTypes := { rtp := false, nack := false, pli := false, fir := false },
    maxRtcpInterval := 5000, lastRtcpSentTime := 0 }

/-- A paused (hence inactive) Consumer. -/
def pausedConsumer : Consumer :=
  { activeConsumer with paused := true }

/-- A sample key-frame packet with supported payload type, as in S1. -/
def pkt0 : RtpPacket :=
  { ssrc := 2222, seq := 1000, payloadType := 100, isKeyFrame := true, timestamp := 0 }

/-- A later packet on the same stream. -/
def pkt1 : RtpPacket :=
  { ssrc := 2222, seq := 1003, payloadType := 100, isKeyFrame := false, timestamp := 30 }

/-- A packet with a payload type outside `supportedCodecPayloadTypes`. -/
def pktBadPT : RtpPacket :=
  { ssrc := 2222, seq := 1001, payloadType := 99, isKeyFrame := false, timestamp := 10 }

/-- A Consumer whose producer is already closed. -/
def closedConsumer : Consumer :=
  { activeConsumer with producerClosed := true }

/-- A Consumer whose producer is already paused. -/
def prodPausedConsumer : Consumer :=
  { activeConsumer with producerPaused := true }

/-- An open socket with some bytes already accounted. -/
def udp0 : UdpSocketState :=
  { closed := false, sentBytes := 10 }

/-- The `types` array of spec scenario S5. -/
def tf0 : Option JVal :=
  some (.jarr [.jstr "rtp", .jstr "garbage", .jstr "nack"])

/-- C1: the listener transmission callback `OnConsumerSendRtpPacket` is invoked
by `SimpleConsumer::SendRtpPacket` only if `IsActive()` held at dispatch; in
particular, while the Consumer is not active no packet is emitted. -/
theorem claim1_active_gate (c : Consumer) (p : RtpPacket) (b : Bool) :
    ((SimpleConsumer.SendRtpPacket c p b).emitted = true → c.IsActive = true) ∧
    (c.IsActive = false → (SimpleConsumer.SendRtpPacket c p b).emitted = false) := by
  constructor
  · intro he
    by_cases h : c.IsActive = true
    · exact h
    · rw [Bool.not_eq_true] at h
      simp [SimpleConsumer.SendRtpPacket, h, SendResult.dropped] at he
  · intro h
    simp [SimpleConsumer.SendRtpPacket, h, SendResult.dropped]

/-- Witness for C1: on an active Consumer and a supported key-frame packet the
listener is invoked, and the theorem yields that the Consumer was active. -/
theorem claim1_active_gate_witness :
    (SimpleConsumer.SendRtpPacket activeConsumer pkt0 true).emitted = true ∧
    activeConsumer.IsActive = true :=
  ⟨by decide, (claim1_active_gate activeConsumer pkt0 true).1 (by decide)⟩

/-- C2: `SimpleConsumer::SendRtpPacket` always restores the packet's SSRC and
sequence number: whether the packet is dropped or forwarded, on return they
equal their values on entry. -/
theorem claim2_packet_restoration (c : Consumer) (p : RtpPacket) (b : Bool) :
    (SimpleConsumer.SendRtpPacket c p b).packet.ssrc = p.ssrc ∧
    (SimpleConsumer.SendRtpPacket c p b).packet.seq = p.seq := by
  unfold SimpleConsumer.SendRtpPacket
  repeat' split
  all_goals simp [SendResult.dropped]

/-- C4: for an active Consumer, a packet whose payload type is not supported is
dropped with no listener emission, no `rtpStream->ReceivePacket` call and no
state change; a packet hitting the sync/key-frame gate is likewise dropped with
`syncRequired` left set; and no non-key-frame packet is ever emitted while
`syncRequired` and `keyFrameSupported` hold. -/
theorem claim4_admission_gates (c : Consumer) (p : RtpPacket) (b : Bool) :
    (c.IsActive = true → p.payloadType ∉ c.supportedCodecPayloadTypes →
      SimpleConsumer.SendRtpPacket c p b = SendResult.dropped c p) ∧
    (c.IsActive = true → p.payloadType ∈ c.supportedCodecPayloadTypes →
      c.syncRequired = true → c.keyFrameSupported = true → p.isKeyFrame = false →
      SimpleConsumer.SendRtpPacket c p b = SendResult.dropped c p) ∧
    (c.syncRequired = true → c.keyFrameSupported = true → p.isKeyFrame = false →
      (SimpleConsumer.SendRtpPacket c p b).emitted = false) := by
  refine ⟨?_, ?_, ?_⟩
  · intro ha hpt
    simp [SimpleConsumer.SendRtpPacket, ha, hpt]
  · intro ha hpt hs hk hkf
    simp [SimpleConsumer.SendRtpPacket, ha, hpt, hs, hk, hkf]
  · intro hs hk hkf
    by_cases ha : c.IsActive = true
    · by_cases hpt : p.payloadType ∈ c.supportedCodecPayloadTypes
      · simp [SimpleConsumer.SendRtpPacket, ha, hpt, hs, hk, hkf, SendResult.dropped]
      · simp [SimpleConsumer.SendRtpPacket, ha, hpt, SendResult.dropped]
    · rw [Bool.not_eq_true] at ha
      simp [SimpleConsumer.SendRtpPacket, ha, SendResult.dropped]

/-- Witness for C4: an active Consumer drops a packet with unsupported payload
type 99 with no side effect at all. -/
theorem claim4_admission_gates_witness :
    activeConsumer.IsActive = true ∧
    SimpleConsumer.SendRtpPacket activeConsumer pktBadPT true =
      SendResult.dropped activeConsumer pktBadPT :=
  ⟨by decide, (claim4_admission_gates activeConsumer pktBadPT true).1 (by decide) (by decide)⟩

/-- C10: `SimpleConsumer::ReceiveNack` does nothing when the Consumer is not
active: no `nack` packet event is emitted and the NACK is not forwarded to the
send RTP stream. -/
theorem claim10_nack_inactive (c : Consumer) (h : c.IsActive = false) :
    SimpleConsumer.ReceiveNack c =
      { nackEventEmitted := false, forwardedToStream := false } := by
  simp [SimpleConsumer.ReceiveNack, h]

/-- Witness for C10: a paused Consumer ignores an incoming NACK. -/
theorem claim10_nack_inactive_witness :
    pausedConsumer.IsActive = false ∧
    SimpleConsumer.ReceiveNack pausedConsumer =
      { nackEventEmitted := false, forwardedToStream := false } :=
  ⟨by decide, claim10_nack_inactive pausedConsumer (by decide)⟩

/-- C7: `CONSUMER_PAUSE` and `CONSUMER_RESUME` are idempotent and always
acknowledged; PAUSE sets `paused` and invokes `UserOnPaused` exactly when the
Consumer was active before the change, RESUME clears `paused` and invokes
`UserOnResumed` exactly when the Consumer is active after the change. -/
theorem claim7_pause_resume (c : Consumer) :
    (c.paused = true → Consumer.handleConsumerPause c =
      { consumer := c, accepted := true, userOnPaused := false, userOnResumed := false }) ∧
    (c.paused = false → Consumer.handleConsumerPause c =
      { consumer := { c with paused := true }, accepted := true,
        userOnPaused := c.IsActive, userOnResumed := false }) ∧
    (c.paused = false → Consumer.handleConsumerResume c =
      { consumer := c, accepted := true, userOnPaused := false, userOnResumed := false }) ∧
    (c.paused = true → Consumer.handleConsumerResume c =
      { consumer := { c with paused := false }, accepted := true, userOnPaused := false,
        userOnResumed := Consumer.IsActive { c with paused := false } }) ∧
    (Consumer.handleConsumerPause c).accepted = true ∧
    (Consumer.handleConsumerResume c).accepted = true := by
  refine ⟨?_, ?_, ?_, ?_, ?_, ?_⟩
  · intro h; simp [Consumer.handleConsumerPause, h]
  · intro h; simp [Consumer.handleConsumerPause, h]
  · intro h; simp [Consumer.handleConsumerResume, h]
  · intro h; simp [Consumer.handleConsumerResume, h]
  · by_cases h : c.paused <;> simp [Consumer.handleConsumerPause, h]
  · by_cases h : c.paused <;> simp [Consumer.handleConsumerResume, h]

/-- Witness for C7: pausing an active, unpaused Consumer sets `paused`, invokes
`UserOnPaused` and acknowledges. -/
theorem claim7_pause_resume_witness :
    Consumer.handleConsumerPause activeConsumer =
      { consumer := { activeConsumer with paused := true }, accepted := true,
        userOnPaused := activeConsumer.IsActive, userOnResumed := false } :=
  (claim7_pause_resume activeConsumer).2.1 (by decide)

/-- C5 counterexample: with `lastRtcpSentTime = 0`, `maxRtcpInterval = 5000`
and `nowMs = 10000` the interval check passes, yet when
`GetRtcpSenderReport` returns null (no packet sent since startup) nothing is
appended to the compound packet and `lastRtcpSentTime` is not updated,
contradicting the claim's unconditional "otherwise" branch. -/
theorem claim5_counterexample :
    ¬ ((10000 - activeConsumer.lastRtcpSentTime) * 115 <
        activeConsumer.maxRtcpInterval * 100) ∧
    (SimpleConsumer.GetRtcp activeConsumer false 10000).addedSenderReport = false ∧
    (SimpleConsumer.GetRtcp activeConsumer false 10000).addedSdesChunk = false ∧
    (SimpleConsumer.GetRtcp activeConsumer false 10000).consumer.lastRtcpSentTime ≠ 10000 := by
  decide

/-- C5 (amended): `GetRtcp` does nothing when
`(nowMs - lastRtcpSentTime) * 1.15 < maxRtcpInterval`; otherwise, provided the
stream's sender report is non-null, it appends a sender report and an SDES
chunk and sets `lastRtcpSentTime = nowMs`; if the report is null it also does
nothing. -/
theorem claim5_get_rtcp (c : Consumer) (hasReport : Bool) (nowMs : Nat) :
    ((nowMs - c.lastRtcpSentTime) * 115 < c.maxRtcpInterval * 100 →
      SimpleConsumer.GetRtcp c hasReport nowMs =
        { consumer := c, addedSenderReport := false, addedSdesChunk := false }) ∧
    (¬ (nowMs - c.lastRtcpSentTime) * 115 < c.maxRtcpInterval * 100 → hasReport = false →
      SimpleConsumer.GetRtcp c hasReport nowMs =
        { consumer := c, addedSenderReport := false, addedSdesChunk := false }) ∧
    (¬ (nowMs - c.lastRtcpSentTime) * 115 < c.maxRtcpInterval * 100 → hasReport = true →
      SimpleConsumer.GetRtcp c hasReport nowMs =
        { consumer := { c with lastRtcpSentTime := nowMs },
          addedSenderReport := true, addedSdesChunk := true }) := by
  refine ⟨?_, ?_, ?_⟩
  · intro h; simp [SimpleConsumer.GetRtcp, h]
  · intro h hr; simp [SimpleConsumer.GetRtcp, h, hr]
  · intro h hr; simp [SimpleConsumer.GetRtcp, h, hr]

/-- Witness for C5 (amended): past the interval and with a report available,
both RTCP items are appended and the timestamp is updated. -/
theorem claim5_get_rtcp_witness :
    SimpleConsumer.GetRtcp activeConsumer true 10000 =
      { consumer := { activeConsumer with lastRtcpSentTime := 10000 },
        addedSenderReport := true, addedSdesChunk := true } :=
  (claim5_get_rtcp activeConsumer true 10000).2.2 (by decide) rfl

/-- C8 counterexample: `Consumer::ProducerClosed` has no idempotence guard;
called on a Consumer whose `producerClosed` flag is already set, it still
emits the `producerclose` notification and signals the listener, so the
second call is not a side-effect-free early return. -/
theorem claim8_counterexample :
    closedConsumer.producerClosed = true ∧
    (Consumer.producerClosedEvent closedConsumer).notified = ["producerclose"] ∧
    (Consumer.producerClosedEvent closedConsumer).listenerProducerClosed = true := by
  constructor
  · decide
  constructor
  · rfl
  · rfl

/-- C8 (amended): `ProducerPaused` and `ProducerResumed` are idempotent — a
second call in the state they established returns early with no flag change,
no hook invocation and no notification — while `ProducerClosed` is unguarded:
every call, including a repeated one, sets `producerClosed`, emits the
`producerclose` notification and signals the listener (the Router is required
to destroy the Consumer right after the first call). -/
theorem claim8_producer_events (c : Consumer) :
    (c.producerPaused = true → Consumer.producerPausedEvent c =
      { consumer := c, userOnPaused := false, userOnResumed := false,
        notified := [], listenerProducerClosed := false }) ∧
    (c.producerPaused = false → Consumer.producerResumedEvent c =
      { consumer := c, userOnPaused := false, userOnResumed := false,
        notified := [], listenerProducerClosed := false }) ∧
    (Consumer.producerClosedEvent c =
      { consumer := { c with producerClosed := true }, userOnPaused := false,
        userOnResumed := false, notified := ["producerclose"],
        listenerProducerClosed := true }) := by
  refine ⟨?_, ?_, rfl⟩
  · intro h; simp [Consumer.producerPausedEvent, h]
  · intro h; simp [Consumer.producerResumedEvent, h]

/-- Witness for C8 (amended): a second `ProducerPaused` on an
already-producer-paused Consumer is a no-op. -/
theorem claim8_producer_events_witness :
    Consumer.producerPausedEvent prodPausedConsumer =
      { consumer := prodPausedConsumer, userOnPaused := false, userOnResumed := false,
        notified := [], listenerProducerClosed := false } :=
  (claim8_producer_events prodPausedConsumer).1 (by decide)

/-- C9: when `uv_udp_try_send` sends only part of the datagram
(`0 ≤ sent < len`), `UdpSocket::Send` increases `sentBytes` by exactly the
truncated amount, invokes the caller's callback exactly once with `false`,
and enqueues nothing further. -/
theorem claim9_truncated_send (s : UdpSocketState) (len : Nat)
    (trySendRet uvSendRet : Int) (hclosed : s.closed = false) (hlen : len ≠ 0)
    (hge : 0 ≤ trySendRet) (hlt : trySendRet < (len : Int)) :
    UdpSocket.Send s len true trySendRet uvSendRet =
      { socket := { s with sentBytes := s.sentBytes + trySendRet.toNat },
        cbCalls := [false], enqueuedAsync := false } := by
  have hne : ¬ trySendRet = (len : Int) := by omega
  simp [UdpSocket.Send, hclosed, hlen, hne, hge]

/-- Witness for C9: an open socket with 10 bytes accounted, a 5-byte datagram
of which 3 bytes are sent, ends with 13 bytes accounted and one `false`
callback. -/
theorem claim9_truncated_send_witness :
    UdpSocket.Send udp0 5 true 3 0 =
      { socket := { udp0 with sentBytes := udp0.sentBytes + (3 : Int).toNat },
        cbCalls := [false], enqueuedAsync := false } :=
  claim9_truncated_send udp0 5 3 0 (by decide) (by decide) (by decide) (by decide)

/-- The exclusive if/else chain of the `CONSUMER_ENABLE_PACKET_EVENT` loop
body sets each flag exactly when the string matches (the four literals are
pairwise distinct, so the chain equals the pointwise form). -/
theorem setFlag_eq (acc : PacketEventTypes) (s : String) :
    setFlag acc s =
      { rtp := acc.rtp || decide ("rtp" = s), nack := acc.nack || decide ("nack" = s),
        pli := acc.pli || decide ("pli" = s), fir := acc.fir || decide ("fir" = s) } := by
  by_cases h1 : s = "rtp"
  · subst h1; simp [setFlag]
  by_cases h2 : s = "nack"
  · subst h2; simp [setFlag]
  by_cases h3 : s = "pli"
  · subst h3; simp [setFlag]
  by_cases h4 : s = "fir"
  · subst h4; simp [setFlag]
  have e1 : ("rtp" = s) = False := eq_false fun h => h1 h.symm
  have e2 : ("nack" = s) = False := eq_false fun h => h2 h.symm
  have e3 : ("pli" = s) = False := eq_false fun h => h3 h.symm
  have e4 : ("fir" = s) = False := eq_false fun h => h4 h.symm
  simp [setFlag, h1, h2, h3, h4, e1, e2, e3, e4]

/-- The loop accumulates exactly the recognised strings: it succeeds iff every
element is a string, and then each flag is its initial value or-ed with the
presence of the matching string. -/
theorem parseTypes_spec (xs : List JVal) (acc : PacketEventTypes) :
    parseTypes acc xs =
      if xs.all JVal.isStringElem then
        some { rtp := acc.rtp || decide ("rtp" ∈ strElems xs),
               nack := acc.nack || decide ("nack" ∈ strElems xs),
               pli := acc.pli || decide ("pli" ∈ strElems xs),
               fir := acc.fir || decide ("fir" ∈ strElems xs) }
      else none := by
  induction xs generalizing acc with
  | nil => simp [parseTypes, strElems]
  | cons x rest ih =>
      cases x with
      | jstr s =>
          rw [show parseTypes acc (JVal.jstr s :: rest) = parseTypes (setFlag acc s) rest
              from rfl, ih]
          simp [JVal.isStringElem, strElems, setFlag_eq, List.mem_cons, Bool.decide_or,
            Bool.or_assoc]
      | jnum n => simp [parseTypes, JVal.isStringElem]
      | jbool b => simp [parseTypes, JVal.isStringElem]
      | jarr ys => simp [parseTypes, JVal.isStringElem]
      | jobj => simp [parseTypes, JVal.isStringElem]

/-- C6: `CONSUMER_ENABLE_PACKET_EVENT` rejects with a TypeError iff `types` is
missing or not an array or some element is not a string; on rejection
`packetEventTypes` (indeed the whole Consumer) is unchanged; on acceptance
`packetEventTypes` holds exactly the recognised strings among
rtp/nack/pli/fir in the provided array, unknown strings silently ignored. -/
theorem claim6_enable_packet_event (c : Consumer) (tf : Option JVal) :
    ((Consumer.enablePacketEvent c tf).1 = false ↔
      isTypesArray tf = false ∨ (arrElems tf).all JVal.isStringElem = false) ∧
    ((Consumer.enablePacketEvent c tf).1 = false →
      (Consumer.enablePacketEvent c tf).2 = c) ∧
    ((Consumer.enablePacketEvent c tf).1 = true →
      (Consumer.enablePacketEvent c tf).2 =
        { c with packetEventTypes :=
            { rtp := decide ("rtp" ∈ strElems (arrElems tf)),
              nack := decide ("nack" ∈ strElems (arrElems tf)),
              pli := decide ("pli" ∈ strElems (arrElems tf)),
              fir := decide ("fir" ∈ strElems (arrElems tf)) } }) := by
  match tf with
  | none => simp [Consumer.enablePacketEvent, isTypesArray, arrElems]
  | some (.jstr s) => simp [Consumer.enablePacketEvent, isTypesArray, arrElems]
  | some (.jnum n) => simp [Consumer.enablePacketEvent, isTypesArray, arrElems]
  | some (.jbool b) => simp [Consumer.enablePacketEvent, isTypesArray, arrElems]
  | some .jobj => simp [Consumer.enablePacketEvent, isTypesArray, arrElems]
  | some (.jarr xs) =>
      by_cases h : xs.all JVal.isStringElem
      · simp [Consumer.enablePacketEvent, isTypesArray, arrElems, parseTypes_spec, h]
      · rw [Bool.not_eq_true] at h
        simp [Consumer.enablePacketEvent, isTypesArray, arrElems, parseTypes_spec, h]

/-- Witness for C6: the S5 request `["rtp","garbage","nack"]` is accepted and
enables exactly the rtp and nack events. -/
theorem claim6_enable_packet_event_witness :
    (Consumer.enablePacketEvent activeConsumer tf0).2 =
      { activeConsumer with packetEventTypes :=
          { rtp := decide ("rtp" ∈ strElems (arrElems tf0)),
            nack := decide ("nack" ∈ strElems (arrElems tf0)),
            pli := decide ("pli" ∈ strElems (arrElems tf0)),
            fir := decide ("fir" ∈ strElems (arrElems tf0)) } } :=
  (claim6_enable_packet_event activeConsumer tf0).2.2 (by decide)

/-- C3: for two packets admitted by `SendRtpPacket` in the same epoch (the
Consumer does not require a sync, so no `Sync` runs between them), the emitted
sequence numbers satisfy `seq(P2) = seq(P1) + (origSeq(P2) - origSeq(P1))`
modulo 2^16; the output delta equals the input delta, so outputs are strictly
increasing modulo 2^16 whenever the inputs are; and after `Sync(base)` the
next `Input` produces `base + 1`. -/
theorem claim3_seq_remap (c : Consumer) (p1 p2 : RtpPacket) (b1 b2 : Bool)
    (htc : c.transportConnected = true) (hpz : c.paused = false)
    (hpp : c.producerPaused = false) (hpc : c.producerClosed = false)
    (hps : c.hasProducerRtpStream = true) (hsync : c.syncRequired = false)
    (hpt1 : p1.payloadType ∈ c.supportedCodecPayloadTypes)
    (hpt2 : p2.payloadType ∈ c.supportedCodecPayloadTypes)
    (hs1 : p1.seq < 65536) (hs2 : p2.seq < 65536) :
    ∃ o1 o2,
      (SimpleConsumer.SendRtpPacket c p1 b1).newSeq = some o1 ∧
      (SimpleConsumer.SendRtpPacket
          (SimpleConsumer.SendRtpPacket c p1 b1).consumer p2 b2).newSeq = some o2 ∧
      o2 = (o1 + 65536 + p2.seq - p1.seq) % 65536 ∧
      (o2 + 65536 - o1) % 65536 = (p2.seq + 65536 - p1.seq) % 65536 ∧
      (1 ≤ (p2.seq + 65536 - p1.seq) % 65536 ∧ (p2.seq + 65536 - p1.seq) % 65536 ≤ 32768 →
        1 ≤ (o2 + 65536 - o1) % 65536 ∧ (o2 + 65536 - o1) % 65536 ≤ 32768) ∧
      (∀ (m : SeqManager) (base i : Nat),
        (SeqManager.Input i (SeqManager.Sync base m)).1 = (base + 1) % 65536) := by
  have ha : c.IsActive = true := by
    simp [Consumer.IsActive, htc, hpz, hpp, hpc, hps]
  cases hm : c.rtpSeqManager.pendingSync with
  | none =>
      refine ⟨(p1.seq % 65536 + c.rtpSeqManager.offset) % 65536,
        (p2.seq % 65536 + c.rtpSeqManager.offset) % 65536, ?_, ?_, ?_, ?_, ?_, ?_⟩
      · simp [SimpleConsumer.SendRtpPacket, ha, hpt1, hsync, SeqManager.Input, hm]
      · simp [SimpleConsumer.SendRtpPacket, ha, hpt1, hpt2, hsync, SeqManager.Input, hm,
          Consumer.IsActive, htc, hpz, hpp, hpc, hps]
      · omega
      · omega
      · omega
      · intro m base i
        simp [SeqManager.Sync, SeqManager.Input]
  | some base =>
      refine ⟨(base + 1) % 65536,
        (p2.seq % 65536 + (((base + 1) % 65536 + 65536 - p1.seq % 65536) % 65536)) % 65536,
        ?_, ?_, ?_, ?_, ?_, ?_⟩
      · simp [SimpleConsumer.SendRtpPacket, ha, hpt1, hsync, SeqManager.Input, hm]
      · simp [SimpleConsumer.SendRtpPacket, ha, hpt1, hpt2, hsync, SeqManager.Input, hm,
          Consumer.IsActive, htc, hpz, hpp, hpc, hps]
      · omega
      · omega
      · omega
      · intro m b i
        simp [SeqManager.Sync, SeqManager.Input]

/-- Witness for C3: the S1-style Consumer forwarding seqs 1000 then 1003
yields outputs preserving the gap of 3. -/
theorem claim3_seq_remap_witness :
    ∃ o1 o2,
      (SimpleConsumer.SendRtpPacket activeConsumer pkt0 true).newSeq = some o1 ∧
      (SimpleConsumer.SendRtpPacket
          (SimpleConsumer.SendRtpPacket activeConsumer pkt0 true).consumer pkt1 true).newSeq =
        some o2 ∧
      o2 = (o1 + 65536 + pkt1.seq - pkt0.seq) % 65536 ∧
      (o2 + 65536 - o1) % 65536 = (pkt1.seq + 65536 - pkt0.seq) % 65536 ∧
      (1 ≤ (pkt1.seq + 65536 - pkt0.seq) % 65536 ∧
          (pkt1.seq + 65536 - pkt0.seq) % 65536 ≤ 32768 →
        1 ≤ (o2 + 65536 - o1) % 65536 ∧ (o2 + 65536 - o1) % 65536 ≤ 32768) ∧
      (∀ (m : SeqManager) (base i : Nat),
        (SeqManager.Input i (SeqManager.Sync base m)).1 = (base + 1) % 65536) :=
  claim3_seq_remap activeConsumer pkt0 pkt1 true true (by decide) (by decide) (by decide)
    (by decide) (by decide) (by decide) (by decide) (by decide) (by decide) (by decide)
